import Mathlib

/-!
Verification development for the MatSciKit XRDML reader
(`src/MatSciKit_COSMOTIM/io/xrdml_reader.py`).

The Python module is shallowly embedded: the XML tree is an inductive
type mirroring `xml.etree.ElementTree.Element` (tag, attributes, text,
children), Python exceptions become an `Except PyErr` monad, Python
floats are modelled as exact rationals (every property below concerns
values on which IEEE arithmetic is exact: division by 1, comparisons
with 0, and linspace endpoints which numpy sets exactly), and Python's
`int` scan indices are modelled as `Int` so that negative-index
semantics of list subscription is captured.
-/

/-- Model of `xml.etree.ElementTree.Element`: a tag, an attribute
association list, optional text, and a list of children. -/
inductive XMLElem where
  | node (tag : String) (attrib : List (String × String))
         (text : Option String) (children : List XMLElem)
deriving Repr

namespace XMLElem

def tag : XMLElem → String
  | node t _ _ _ => t

def attrib : XMLElem → List (String × String)
  | node _ a _ _ => a

def text : XMLElem → Option String
  | node _ _ tx _ => tx

def children : XMLElem → List XMLElem
  | node _ _ _ cs => cs

/-- `Element.find(tag)`: first direct child with the given tag, or `None`. -/
def find (e : XMLElem) (t : String) : Option XMLElem :=
  e.children.find? (fun c => c.tag == t)

/-- `Element.findall(tag)`: all direct children with the given tag,
in document order. -/
def findall (e : XMLElem) (t : String) : List XMLElem :=
  e.children.filter (fun c => c.tag == t)

/-- `elem.attrib.get(key)` / `key in elem.attrib` lookups. -/
def attr (e : XMLElem) (key : String) : Option String :=
  (e.attrib.find? (fun p => p.fst == key)).map Prod.snd

end XMLElem

/-- Python truthiness of `elem.text`: `None` and the empty string are
falsy, so the `if x is not None and x.text:` guards in the source see
`none` for both. -/
def textOf (e : XMLElem) : Option String :=
  match e.text with
  | none => none
  | some t => if t = "" then none else some t

/-- The exceptions the reader raises: `FileNotFoundError`,
`ValueError` (the spec's FormatError) and `IndexError`. -/
inductive PyErr where
  | fileNotFound (msg : String)
  | valueError (msg : String)
  | indexError (msg : String)
deriving Repr, DecidableEq

/-- Value of a digit sequence, e.g. `digitsVal ['3','0','1'] = 301`.
(The string functions below work on `String.data` character lists so
that every definition evaluates by kernel reduction.) -/
def digitsVal (cs : List Char) : ℕ :=
  cs.foldl (fun acc c => acc * 10 + (c.toNat - 48)) 0

/-- Strip leading and trailing whitespace, as Python's `float` does on
its argument. -/
def trimChars (cs : List Char) : List Char :=
  ((cs.dropWhile Char.isWhitespace).reverse.dropWhile Char.isWhitespace).reverse

/-- Model of Python's `float(s)` on the decimal literals the format
carries: optional surrounding whitespace, optional sign, digits with an
optional single decimal point (exponent forms are out of scope for
these documents). Returns `none` where `float` would raise. -/
def parseFloatChars (cs : List Char) : Option ℚ :=
  let (sign, rest) : ℚ × List Char :=
    match trimChars cs with
    | '-' :: r => (-1, r)
    | '+' :: r => (1, r)
    | r => (1, r)
  match List.splitOnP (fun c => c == '.') rest with
  | [ip] =>
      if ip ≠ [] ∧ ip.all Char.isDigit then
        some (sign * (digitsVal ip : ℚ))
      else none
  | [ip, fp] =>
      if ip ++ fp ≠ [] ∧ ip.all Char.isDigit ∧ fp.all Char.isDigit then
        some (sign * ((digitsVal ip : ℚ) + (digitsVal fp : ℚ) / (10 : ℚ) ^ fp.length))
      else none
  | _ => none

/-- `float` on a string value. -/
def parseFloat (s : String) : Option ℚ := parseFloatChars s.data

/-- Python's `str.split()` with no argument: split on runs of
whitespace, discarding empty pieces. -/
def splitWhitespace (s : String) : List String :=
  ((List.splitOnP (fun c => c.isWhitespace) s.data).filter
    (fun t => t ≠ [])).map (fun cs => String.mk cs)

/-- Model of `np.fromstring(text, sep=' ')`: parse whitespace-separated
floats, stopping at the first token that does not parse. -/
def npFromString (s : String) : List ℚ :=
  go (splitWhitespace s)
where
  go : List String → List ℚ
    | [] => []
    | t :: ts =>
      match parseFloat t with
      | some v => v :: go ts
      | none => []

/-- Model of `np.linspace(a, b, n)`: `n` evenly spaced values from `a`
to `b` inclusive. In ℚ the closed form is exact; numpy also returns the
endpoints exactly (it overwrites the last element with `b`). For `n = 1`
the result is `[a]` (the division by zero contributes 0 in ℚ, matching
numpy's single-sample case), and for `n = 0` it is empty. -/
def linspace (a b : ℚ) (n : ℕ) : List ℚ :=
  (List.range n).map (fun (i : ℕ) => a + (i : ℚ) * (b - a) / ((n : ℚ) - 1))

/-- Model of `np.max`: raises `ValueError` on an empty array. -/
def npMax (l : List ℚ) : Except PyErr ℚ :=
  match l with
  | [] => .error (.valueError "zero-size array to reduction operation maximum")
  | x :: xs => .ok (xs.foldl max x)

/-- The reader's state after `__init__`/`_parse_file`: the parsed root,
the namespace prefix in use (possibly empty), and the eagerly built
flat list of scan elements. -/
structure Reader where
  root : XMLElem
  ns : String
  scans : List XMLElem
deriving Repr

/-- `XRDMLReader._parse_file` after a successful XML parse: extract the
namespace from the root tag, validate via the `comment` element (with
the unqualified retry), then collect all `scan` children of all
`xrdMeasurement` elements directly under the root into one flat list. -/
def parseRoot (root : XMLElem) : Except PyErr Reader := do
  let ns0 :=
    if root.tag.data.contains (Char.ofNat 125) then
      String.mk (root.tag.data.takeWhile (fun c => c ≠ Char.ofNat 125)) ++ "\x7d"
    else ""
  let ns ←
    if (root.find (ns0 ++ "comment")).isSome then pure ns0
    else if (root.find "comment").isSome then pure ""
    else throw (.valueError "Not a valid .xrdml file")
  let measurements := root.findall (ns ++ "xrdMeasurement")
  let scans := (measurements.map (fun m => m.findall (ns ++ "scan"))).flatten
  pure { root := root, ns := ns, scans := scans }

/-- A file system: maps a path to `none` (no such file) or to the
outcome of parsing its bytes as XML (`Except.error` = `ET.ParseError`
diagnostic, `Except.ok` = parsed root element). -/
def FileSystem := String → Option (Except String XMLElem)

/-- `XRDMLReader.__init__`: existence check first
(`FileNotFoundError` before any parse), then `_parse_file`, which
converts an XML parse error into `ValueError("Invalid XML file: ...")`
and otherwise validates and indexes the document. -/
def XRDMLReader.init (fs : FileSystem) (filepath : String) : Except PyErr Reader :=
  match fs filepath with
  | none => .error (.fileNotFound ("File not found: " ++ filepath))
  | some (.error e) => .error (.valueError ("Invalid XML file: " ++ e))
  | some (.ok root) => parseRoot root

/-- `XRDMLReader.get_num_scans`. -/
def getNumScans (r : Reader) : ℕ := r.scans.length

/-- Python list subscription `l[i]` with an `int` index: non-negative
indices address from the front, negative ones from the back, anything
else raises `IndexError("list index out of range")`. -/
def pyIndex {α : Type} (l : List α) (i : ℤ) : Except PyErr α :=
  let j : ℤ := if i < 0 then i + (l.length : ℤ) else i
  if h : 0 ≤ j ∧ j.toNat < l.length then
    .ok (l.get ⟨j.toNat, h.2⟩)
  else
    .error (.indexError "list index out of range")

/-- The out-of-range message raised by `get_metadata` and `read_scan`. -/
def scanIndexMsg (i : ℤ) (n : ℕ) : String :=
  "Scan index " ++ toString i ++ " out of range. Available scans: " ++ toString n

/-- The metadata record `get_metadata` builds: a dict with optional
entries, modelled as a structure of `Option` fields (absent key =
`none`). -/
structure Metadata where
  sample_id : Option String := none
  wavelength_ka1 : Option ℚ := none
  wavelength_ka2 : Option ℚ := none
  wavelength_kb : Option ℚ := none
  ka2_ka1_ratio : Option ℚ := none
  gonio_radius : Option ℚ := none
  tube_type : Option String := none
  voltage : Option String := none
  current : Option String := none
  start_time : Option String := none
  end_time : Option String := none
  temperature : Option ℚ := none
deriving Repr, DecidableEq

/-- Python's `float(x)` where `x` is `elem.text`: raises when the text
is absent or does not parse as a float literal. -/
def pyFloat (t : Option String) : Except PyErr ℚ :=
  match t with
  | none => .error (.valueError "float() argument is not a string")
  | some s =>
    match parseFloat s with
    | none => .error (.valueError ("could not convert string to float: " ++ s))
    | some v => .ok v

/-- The `sample` block of `get_metadata`: stores `sample/id` text when
present and non-empty. -/
def applySample (ns : String) (root : XMLElem) (m : Metadata) : Metadata :=
  match root.find (ns ++ "sample") with
  | none => m
  | some sample =>
    match (sample.find (ns ++ "id")).bind textOf with
    | none => m
    | some t => { m with sample_id := some t }

/-- One optional float field of the `usedWavelength` block: skipped when
the element or its text is absent, but `float(text)` itself may raise. -/
def setFloatField (e : Option XMLElem) (set : Metadata → ℚ → Metadata)
    (m : Metadata) : Except PyErr Metadata :=
  match e.bind textOf with
  | none => pure m
  | some t =>
    match parseFloat t with
    | none => throw (.valueError ("could not convert string to float: " ++ t))
    | some v => pure (set m v)

/-- The `usedWavelength` block of `get_metadata`. -/
def applyWavelength (ns : String) (xm : XMLElem) (m : Metadata) :
    Except PyErr Metadata :=
  match xm.find (ns ++ "usedWavelength") with
  | none => pure m
  | some w => do
    let m ← setFloatField (w.find (ns ++ "kAlpha1"))
      (fun m v => { m with wavelength_ka1 := some v }) m
    let m ← setFloatField (w.find (ns ++ "kAlpha2"))
      (fun m v => { m with wavelength_ka2 := some v }) m
    let m ← setFloatField (w.find (ns ++ "kBeta"))
      (fun m v => { m with wavelength_kb := some v }) m
    setFloatField (w.find (ns ++ "ratioKAlpha2KAlpha1"))
      (fun m v => { m with ka2_ka1_ratio := some v }) m

/-- The radius lookup inside the `try` block: `.error` marks the one
statement there that can raise, `float(radius.text)` on unparseable
text; `.ok none` is the silent skip when the element or text is absent. -/
def radiusParse (ns : String) (ib : XMLElem) : Except Unit (Option ℚ) :=
  match (ib.find (ns ++ "radius")).bind textOf with
  | none => .ok none
  | some t =>
    match parseFloat t with
    | none => .error ()
    | some v => .ok (some v)

/-- The `xRayTube` sub-block: name attribute, tension and current text.
None of these statements can raise. -/
def applyTube (ns : String) (ib : XMLElem) (m : Metadata) : Metadata :=
  match ib.find (ns ++ "xRayTube") with
  | none => m
  | some tube =>
    let m1 := match tube.attr "name" with
      | some nm => { m with tube_type := some nm }
      | none => m
    let m2 := match (tube.find (ns ++ "tension")).bind textOf with
      | some t => { m1 with voltage := some t }
      | none => m1
    match (tube.find (ns ++ "current")).bind textOf with
      | some t => { m2 with current := some t }
      | none => m2

/-- The `try/except` around the `incidentBeamPath` traversal: any
exception (only the radius float conversion can raise, and it raises
before `gonio_radius` or any tube field is assigned) is swallowed and
replaced by the hard-coded `gonio_radius = 300.0` default. When the
`incidentBeamPath` element is simply absent, nothing is assigned. -/
def applyIncidentBeam (ns : String) (xm : XMLElem) (m : Metadata) : Metadata :=
  match xm.find (ns ++ "incidentBeamPath") with
  | none => m
  | some ib =>
    match radiusParse ns ib with
    | .error _ => { m with gonio_radius := some 300 }
    | .ok radOpt =>
      let m1 := match radOpt with
        | none => m
        | some v => { m with gonio_radius := some v }
      applyTube ns ib m1

/-- The scan `header` block: start and end timestamps stored as raw
text when present. -/
def applyHeader (ns : String) (scan : XMLElem) (m : Metadata) : Metadata :=
  match scan.find (ns ++ "header") with
  | none => m
  | some h =>
    let m1 := match (h.find (ns ++ "startTimeStamp")).bind textOf with
      | some t => { m with start_time := some t }
      | none => m
    match (h.find (ns ++ "endTimeStamp")).bind textOf with
      | some t => { m1 with end_time := some t }
      | none => m1

/-- The `nonAmbientPoints` block: when the `type` attribute equals
`"Temperature"` and the value list is non-empty, the last
whitespace-separated value is parsed as the temperature (that `float`
call can raise on unparseable text). -/
def applyNonAmbient (ns : String) (scan : XMLElem) (m : Metadata) :
    Except PyErr Metadata :=
  match scan.find (ns ++ "nonAmbientPoints") with
  | none => pure m
  | some cond =>
    if cond.attr "type" = some "Temperature" then
      match (cond.find (ns ++ "nonAmbientValues")).bind textOf with
      | none => pure m
      | some t =>
        match (splitWhitespace t).getLast? with
        | none => pure m
        | some lastTok =>
          match parseFloat lastTok with
          | none => throw (.valueError
              ("could not convert string to float: " ++ lastTok))
          | some temp => pure { m with temperature := some temp }
    else pure m

/-- The instrument half of `get_metadata` (sample block, then
wavelength and incident-beam blocks of `self.root.find('xrdMeasurement')`,
i.e. of the first measurement element under the root): this part reads
only the document root, never the indexed scan. -/
def instrumentMeta (r : Reader) : Except PyErr Metadata :=
  let m := applySample r.ns r.root {}
  match r.root.find (r.ns ++ "xrdMeasurement") with
  | none => pure m
  | some xm => do
    let m ← applyWavelength r.ns xm m
    pure (applyIncidentBeam r.ns xm m)

/-- `XRDMLReader.get_metadata`: bound check against the scan count,
then the five blocks in source order. The instrument blocks read the
root's `sample` element and the first `xrdMeasurement` under the root;
the header and non-ambient blocks read the indexed scan element. -/
def getMetadata (r : Reader) (scan_index : ℤ) : Except PyErr Metadata :=
  if (getNumScans r : ℤ) ≤ scan_index then
    throw (.indexError (scanIndexMsg scan_index (getNumScans r)))
  else do
    let scan ← pyIndex r.scans scan_index
    let m ← instrumentMeta r
    applyNonAmbient r.ns scan (applyHeader r.ns scan m)

/-- The intensity-array lookup of `read_scan`: try the `intensities`
tag, then `counts`; a tag whose text is absent or empty does not stop
the loop. -/
def intensityLookup (ns : String) (dp : XMLElem) : Option (List ℚ) :=
  match (dp.find (ns ++ "intensities")).bind textOf with
  | some t => some (npFromString t)
  | none =>
    match (dp.find (ns ++ "counts")).bind textOf with
    | some t => some (npFromString t)
    | none => none

/-- `XRDMLReader.read_scan`: bound check, locate `dataPoints`,
`positions`, the start/end positions, the intensity array, rebuild the
angular axis with `linspace`, and attach the metadata. -/
def readScan (r : Reader) (scan_index : ℤ) :
    Except PyErr (List ℚ × List ℚ × Metadata) :=
  if (getNumScans r : ℤ) ≤ scan_index then
    throw (.indexError (scanIndexMsg scan_index (getNumScans r)))
  else do
  let scan ← pyIndex r.scans scan_index
  let ns := r.ns
  let dp ←
    match scan.find (ns ++ "dataPoints") with
    | some d => pure d
    | none => throw (.valueError "No dataPoints element found in scan")
  let positions ←
    match dp.find (ns ++ "positions") with
    | some p => pure p
    | none => throw (.valueError "No positions element found in dataPoints")
  let posPair ←
    match positions.find (ns ++ "startPosition"),
          positions.find (ns ++ "endPosition") with
    | some se, some ee => pure (se, ee)
    | _, _ => throw (.valueError "Start or end position not found")
  let start_pos ← pyFloat posPair.1.text
  let end_pos ← pyFloat posPair.2.text
  let intensities ←
    match intensityLookup ns dp with
    | some l => pure l
    | none => throw (.valueError "Intensity data could not be located")
  let two_theta := linspace start_pos end_pos intensities.length
  let metadata ← getMetadata r scan_index
  pure (two_theta, intensities, metadata)

/-- The normalization block shared verbatim by `to_array` and
`read_xrdml`: divide by the maximum intensity only when it is strictly
positive (`np.max` raises on an empty array). -/
def normalizeMax (ints : List ℚ) : Except PyErr (List ℚ) := do
  let m ← npMax ints
  if m > 0 then pure (ints.map (fun x => x / m)) else pure ints

/-- `XRDMLReader.to_array`: read a scan, optionally normalize, and
column-stack the axis and intensity columns. -/
def toArray (r : Reader) (scan_index : ℤ) (normalize : Bool) :
    Except PyErr (List (ℚ × ℚ)) := do
  let res ← readScan r scan_index
  let ints ← if normalize then normalizeMax res.2.1 else pure res.2.1
  pure (res.1.zip ints)

/-- The module-level convenience function `read_xrdml`: construct the
reader, read the requested scan, optionally normalize. -/
def read_xrdml (fs : FileSystem) (filepath : String) (scan_index : ℤ)
    (normalize : Bool) : Except PyErr (List ℚ × List ℚ × Metadata) := do
  let reader ← XRDMLReader.init fs filepath
  let res ← readScan reader scan_index
  let ints ← if normalize then normalizeMax res.2.1 else pure res.2.1
  pure (res.1, ints, res.2.2)

/-- Spec composition for the one-shot entry point (spec §4.3, aggregate
operations): open a Document on the path, perform one extraction at the
given index, and apply the optional normalization of series extraction
(§4.3 step 6) to the intensity column. Written from the spec's words to
compare against `read_xrdml`. -/
def readXrdmlSpec (fs : FileSystem) (filepath : String) (scan_index : ℤ)
    (normalize : Bool) : Except PyErr (List ℚ × List ℚ × Metadata) := do
  let document ← XRDMLReader.init fs filepath
  let extracted ← readScan document scan_index
  if normalize then
    let scaled ← normalizeMax extracted.2.1
    pure (extracted.1, scaled, extracted.2.2)
  else
    pure extracted

/-- Shorthand for an element with no attributes and no text. -/
def el (tag : String) (children : List XMLElem) : XMLElem :=
  .node tag [] none children

/-- Shorthand for a leaf element carrying only text. -/
def tx (tag : String) (t : String) : XMLElem :=
  .node tag [] (some t) []

/-- The reader a parsed root yields, for building concrete test
documents (`parseRoot` succeeds on all fixtures below, which each
carry a `comment` element). -/
def readerOf (root : XMLElem) : Reader :=
  (parseRoot root).toOption.getD { root := root, ns := "", scans := [] }

/-- The temperature block of `sampleDoc`'s first scan. -/
def sampleCondA : XMLElem :=
  .node "nonAmbientPoints" [("type", "Temperature")] none
    [tx "nonAmbientValues" "299.1 300.4 301.0"]

/-- First scan of `sampleDoc`: header, temperature and the spec's
concrete series (10.0..20.0, five samples). -/
def sampleScanA : XMLElem :=
  el "scan" [
    el "header" [
      tx "startTimeStamp" "2024-01-01T10:00:00",
      tx "endTimeStamp" "2024-01-01T11:00:00"],
    sampleCondA,
    el "dataPoints" [
      el "positions" [tx "startPosition" "10.0", tx "endPosition" "20.0"],
      tx "intensities" "1 2 3 4 5"]]

/-- Second scan of `sampleDoc`: a non-positive `counts` series. -/
def sampleScanB : XMLElem :=
  el "scan" [
    el "dataPoints" [
      el "positions" [tx "startPosition" "5.0", tx "endPosition" "6.0"],
      tx "counts" "0 -1 0"]]

/-- Third scan of `sampleDoc`, in the second measurement block: a
two-point series with maximum 1. -/
def sampleScanC : XMLElem :=
  el "scan" [
    el "dataPoints" [
      el "positions" [tx "startPosition" "30.0", tx "endPosition" "31.0"],
      tx "intensities" "0.5 1.0"]]

/-- A concrete well-formed document: two measurement blocks, three
scans total. -/
def sampleDoc : XMLElem :=
  el "xrdMeasurements" [
    tx "comment" "Configuration=Reflection",
    el "sample" [tx "id" "LCO-1"],
    el "xrdMeasurement" [
      el "usedWavelength" [
        tx "kAlpha1" "1.5406", tx "kAlpha2" "1.5444",
        tx "kBeta" "1.3922", tx "ratioKAlpha2KAlpha1" "0.5"],
      el "incidentBeamPath" [
        tx "radius" "240.0",
        .node "xRayTube" [("name", "Cu")] none
          [tx "tension" "45", tx "current" "40"]],
      sampleScanA,
      sampleScanB],
    el "xrdMeasurement" [sampleScanC]]

/-- The first measurement block of `sampleDoc`'s counterpart without an
incident beam path: used to exhibit that a document lacking
`incidentBeamPath` yields no `gonio_radius` entry at all. -/
def c2MeasElem : XMLElem :=
  el "xrdMeasurement" [el "scan" []]

/-- A document whose only measurement block lacks `incidentBeamPath`
(and everything else optional). -/
def c2Doc : XMLElem :=
  el "xrdMeasurements" [tx "comment" "c", c2MeasElem]

/-- An incident-beam block whose `radius` text does not parse as a
float. -/
def c2BadIb : XMLElem := el "incidentBeamPath" [tx "radius" "n/a"]

/-- A measurement block containing `c2BadIb` and one scan. -/
def c2BadXm : XMLElem := el "xrdMeasurement" [c2BadIb, el "scan" []]

/-- A document whose `radius` text does not parse as a float, so the
`try` traversal raises and the 300.0 fallback fires. -/
def c2BadRadiusDoc : XMLElem :=
  el "xrdMeasurements" [tx "comment" "c", c2BadXm]

/-- The metadata `c2BadRadiusDoc` yields: only the fallback radius. -/
def c2BadMeta : Metadata := { gonio_radius := some 300 }

/-- Start position element of the intensity-free document. -/
def c4SE : XMLElem := tx "startPosition" "10.0"

/-- End position element of the intensity-free document. -/
def c4EE : XMLElem := tx "endPosition" "20.0"

/-- Positions element of the intensity-free document. -/
def c4Pos : XMLElem := el "positions" [c4SE, c4EE]

/-- A `dataPoints` element with positions but neither `intensities` nor
`counts`. -/
def c4DP : XMLElem := el "dataPoints" [c4Pos]

/-- The scan of the intensity-free document. -/
def c4Scan : XMLElem := el "scan" [c4DP]

/-- A document whose scan has `dataPoints` with positions but neither
`intensities` nor `counts`. -/
def c4Doc : XMLElem :=
  el "xrdMeasurements" [tx "comment" "c", el "xrdMeasurement" [c4Scan]]

/-- An optional float element is benign for `get_metadata` when it is
absent, has no text, or has text that `float` accepts. -/
def tagOk (e : Option XMLElem) : Bool :=
  match e.bind textOf with
  | none => true
  | some t => (parseFloat t).isSome

/-- All `float` conversions in a measurement block's `usedWavelength`
sub-block succeed. -/
def usedWavelengthOk (ns : String) (xm : XMLElem) : Bool :=
  match xm.find (ns ++ "usedWavelength") with
  | none => true
  | some w =>
    tagOk (w.find (ns ++ "kAlpha1")) && tagOk (w.find (ns ++ "kAlpha2")) &&
    tagOk (w.find (ns ++ "kBeta")) && tagOk (w.find (ns ++ "ratioKAlpha2KAlpha1"))

/-- All `float` conversions in the `usedWavelength` block of the first
measurement element succeed (the only statements of the instrument half
of `get_metadata` that can raise). -/
def wavelengthParses (ns : String) (root : XMLElem) : Bool :=
  match root.find (ns ++ "xrdMeasurement") with
  | none => true
  | some xm => usedWavelengthOk ns xm

/-- The `float` conversion in the `nonAmbientPoints` block of a scan
succeeds when it is reached (the only statement of the scan half of
`get_metadata` that can raise). -/
def tempParses (ns : String) (scan : XMLElem) : Bool :=
  match scan.find (ns ++ "nonAmbientPoints") with
  | none => true
  | some cond =>
    if cond.attr "type" = some "Temperature" then
      match (cond.find (ns ++ "nonAmbientValues")).bind textOf with
      | none => true
      | some t =>
        match (splitWhitespace t).getLast? with
        | none => true
        | some tok => (parseFloat tok).isSome
    else true

/-- The instrument metadata shared by every scan of `sampleDoc`. -/
def sampleInstrumentMeta : Metadata :=
  { sample_id := some "LCO-1",
    wavelength_ka1 := some (15406/10000),
    wavelength_ka2 := some (15444/10000),
    wavelength_kb := some (13922/10000),
    ka2_ka1_ratio := some (1/2),
    gonio_radius := some 240,
    tube_type := some "Cu",
    voltage := some "45",
    current := some "40" }

/-- The full metadata of `sampleDoc`'s first scan. -/
def sampleMeta0 : Metadata :=
  { sampleInstrumentMeta with
    start_time := some "2024-01-01T10:00:00",
    end_time := some "2024-01-01T11:00:00",
    temperature := some 301 }

/-- The axis the first scan of `sampleDoc` decodes to. -/
def axis0 : List ℚ := [10, 25/2, 15, 35/2, 20]

/-- The intensities the first scan of `sampleDoc` decodes to. -/
def ints0 : List ℚ := [1, 2, 3, 4, 5]

/-- A file system with no files at all. -/
def emptyFS : FileSystem := fun _ => none

/-- A file system holding one present-but-corrupt file. -/
def badFS : FileSystem := fun p =>
  if p = "bad.xrdml" then some (.error "syntax error: line 1, column 0")
  else none

instance {ε α : Type} [DecidableEq ε] [DecidableEq α] : DecidableEq (Except ε α) :=
  fun x y =>
    match x, y with
    | .error a, .error b =>
      if h : a = b then .isTrue (congrArg Except.error h)
      else .isFalse (fun c => h (Except.error.inj c))
    | .ok a, .ok b =>
      if h : a = b then .isTrue (congrArg Except.ok h)
      else .isFalse (fun c => h (Except.ok.inj c))
    | .error _, .ok _ => .isFalse Except.noConfusion
    | .ok _, .error _ => .isFalse Except.noConfusion

theorem exceptBind_ok {α β : Type} {x : Except PyErr α} {f : α → Except PyErr β}
    {b : β} : x >>= f = .ok b ↔ ∃ a, x = .ok a ∧ f a = .ok b := by
  cases x with
  | error e =>
    simp only [Bind.bind, Except.bind]
    constructor
    · intro h; exact absurd h (by simp)
    · rintro ⟨a, ha, _⟩; exact absurd ha (by simp)
  | ok a =>
    simp only [Bind.bind, Except.bind]
    constructor
    · intro h; exact ⟨a, rfl, h⟩
    · rintro ⟨a2, ha, hf⟩; cases ha; exact hf

theorem throw_ne_ok {α : Type} {e : PyErr} {a : α} :
    (throw e : Except PyErr α) ≠ .ok a := by
  simp [throw, throwThe, MonadExceptOf.throw]

theorem pure_eq_ok {α : Type} (a : α) : (pure a : Except PyErr α) = .ok a := rfl

theorem throw_eq_error {α : Type} (e : PyErr) :
    (throw e : Except PyErr α) = .error e := rfl

theorem linspace_length (a b : ℚ) (n : ℕ) : (linspace a b n).length = n := by
  unfold linspace
  rw [List.length_map, List.length_range]

theorem linspace_get? (a b : ℚ) (n k : ℕ) (h : k < n) :
    (linspace a b n).get? k = some (a + (k : ℚ) * (b - a) / ((n : ℚ) - 1)) := by
  unfold linspace
  rw [List.get?_map, List.get?_range h]
  rfl

theorem linspace_head (a b : ℚ) (n : ℕ) (h : 1 ≤ n) :
    (linspace a b n).head? = some a := by
  have h0 : (linspace a b n).get? 0 = some (a + (0 : ℚ) * (b - a) / ((n : ℚ) - 1)) :=
    linspace_get? a b n 0 (by omega)
  rw [← List.get?_zero, h0]
  norm_num

theorem linspace_getLast (a b : ℚ) (n : ℕ) (h : 2 ≤ n) :
    (linspace a b n).getLast? = some b := by
  have hne : ((n : ℚ) - 1) ≠ 0 := by
    have : (2 : ℚ) ≤ (n : ℚ) := by exact_mod_cast h
    intro hc; nlinarith
  have hv : (linspace a b n).get? (n - 1) =
      some (a + ((n - 1 : ℕ) : ℚ) * (b - a) / ((n : ℚ) - 1)) :=
    linspace_get? a b n (n - 1) (by omega)
  have hcast : ((n - 1 : ℕ) : ℚ) = (n : ℚ) - 1 := by
    have : 1 ≤ n := by omega
    push_cast [this]
    ring
  rw [List.getLast?_eq_get?, linspace_length, hv, hcast]
  congr 1
  field_simp

theorem linspace_spacing (a b : ℚ) (n k : ℕ) (h : k + 1 < n) :
    (linspace a b n).getD (k + 1) 0 - (linspace a b n).getD k 0 =
      (b - a) / ((n : ℚ) - 1) := by
  have h1 : (linspace a b n).get? (k + 1) =
      some (a + ((k + 1 : ℕ) : ℚ) * (b - a) / ((n : ℚ) - 1)) :=
    linspace_get? a b n (k + 1) h
  have h2 : (linspace a b n).get? k =
      some (a + (k : ℚ) * (b - a) / ((n : ℚ) - 1)) :=
    linspace_get? a b n k (by omega)
  rw [List.getD_eq_get?, List.getD_eq_get?, h1, h2]
  push_cast
  simp [Option.getD]
  ring

theorem applySample_gonio (ns : String) (root : XMLElem) (m : Metadata) :
    (applySample ns root m).gonio_radius = m.gonio_radius := by
  unfold applySample
  split
  · rfl
  · split <;> rfl

theorem setFloatField_preserve {e : Option XMLElem} {f : Metadata → ℚ → Metadata}
    {m m2 : Metadata} (g : Metadata → Option ℚ)
    (h : setFloatField e f m = .ok m2)
    (hf : ∀ m v, g (f m v) = g m) : g m2 = g m := by
  unfold setFloatField at h
  split at h
  · cases h; rfl
  · split at h
    · exact absurd h throw_ne_ok
    · cases h
      exact hf m _

theorem applyWavelength_gonio {ns : String} {xm : XMLElem} {m m2 : Metadata}
    (h : applyWavelength ns xm m = .ok m2) :
    m2.gonio_radius = m.gonio_radius := by
  unfold applyWavelength at h
  split at h
  · cases h; rfl
  · rw [exceptBind_ok] at h
    obtain ⟨a, h1, h⟩ := h
    rw [exceptBind_ok] at h
    obtain ⟨b, h2, h⟩ := h
    rw [exceptBind_ok] at h
    obtain ⟨c, h3, h⟩ := h
    have e4 := setFloatField_preserve Metadata.gonio_radius h (fun _ _ => rfl)
    have e3 := setFloatField_preserve Metadata.gonio_radius h3 (fun _ _ => rfl)
    have e2 := setFloatField_preserve Metadata.gonio_radius h2 (fun _ _ => rfl)
    have e1 := setFloatField_preserve Metadata.gonio_radius h1 (fun _ _ => rfl)
    rw [e4, e3, e2, e1]

theorem applyTube_gonio (ns : String) (ib : XMLElem) (m : Metadata) :
    (applyTube ns ib m).gonio_radius = m.gonio_radius := by
  unfold applyTube
  split
  · rfl
  · dsimp only
    repeat' split
    all_goals rfl

theorem applyIncidentBeam_error_300 {ns : String} {xm ib : XMLElem} {m : Metadata}
    (hib : xm.find (ns ++ "incidentBeamPath") = some ib)
    (hrad : radiusParse ns ib = .error ()) :
    (applyIncidentBeam ns xm m).gonio_radius = some 300 := by
  unfold applyIncidentBeam
  rw [hib]
  dsimp only
  rw [hrad]

theorem applyIncidentBeam_absent {ns : String} {xm : XMLElem} {m : Metadata}
    (hib : xm.find (ns ++ "incidentBeamPath") = none) :
    applyIncidentBeam ns xm m = m := by
  unfold applyIncidentBeam
  rw [hib]

theorem applyIncidentBeam_noradius {ns : String} {xm ib : XMLElem} {m : Metadata}
    (hib : xm.find (ns ++ "incidentBeamPath") = some ib)
    (hrad : radiusParse ns ib = .ok none) :
    (applyIncidentBeam ns xm m).gonio_radius = m.gonio_radius := by
  unfold applyIncidentBeam
  rw [hib]
  dsimp only
  rw [hrad]
  dsimp only
  exact applyTube_gonio ns ib m

theorem applyHeader_fields (ns : String) (scan : XMLElem) (m : Metadata) :
    (applyHeader ns scan m).sample_id = m.sample_id ∧
    (applyHeader ns scan m).wavelength_ka1 = m.wavelength_ka1 ∧
    (applyHeader ns scan m).wavelength_ka2 = m.wavelength_ka2 ∧
    (applyHeader ns scan m).wavelength_kb = m.wavelength_kb ∧
    (applyHeader ns scan m).ka2_ka1_ratio = m.ka2_ka1_ratio ∧
    (applyHeader ns scan m).gonio_radius = m.gonio_radius ∧
    (applyHeader ns scan m).tube_type = m.tube_type ∧
    (applyHeader ns scan m).voltage = m.voltage ∧
    (applyHeader ns scan m).current = m.current ∧
    (applyHeader ns scan m).temperature = m.temperature := by
  unfold applyHeader
  split
  · simp
  · dsimp only
    repeat' split
    all_goals simp

theorem applyNonAmbient_fields {ns : String} {scan : XMLElem} {m m2 : Metadata}
    (h : applyNonAmbient ns scan m = .ok m2) :
    m2.sample_id = m.sample_id ∧
    m2.wavelength_ka1 = m.wavelength_ka1 ∧
    m2.wavelength_ka2 = m.wavelength_ka2 ∧
    m2.wavelength_kb = m.wavelength_kb ∧
    m2.ka2_ka1_ratio = m.ka2_ka1_ratio ∧
    m2.gonio_radius = m.gonio_radius ∧
    m2.tube_type = m.tube_type ∧
    m2.voltage = m.voltage ∧
    m2.current = m.current ∧
    m2.start_time = m.start_time ∧
    m2.end_time = m.end_time := by
  unfold applyNonAmbient at h
  split at h
  · cases h; simp
  · split at h
    · split at h
      · cases h; simp
      · split at h
        · cases h; simp
        · split at h
          · exact absurd h throw_ne_ok
          · cases h; simp
    · cases h; simp

theorem applyNonAmbient_temperature {ns : String} {scan cond : XMLElem}
    {m : Metadata} {t lastTok : String} {temp : ℚ}
    (hcond : scan.find (ns ++ "nonAmbientPoints") = some cond)
    (htype : cond.attr "type" = some "Temperature")
    (hvals : (cond.find (ns ++ "nonAmbientValues")).bind textOf = some t)
    (hlast : (splitWhitespace t).getLast? = some lastTok)
    (hparse : parseFloat lastTok = some temp) :
    applyNonAmbient ns scan m = .ok { m with temperature := some temp } := by
  unfold applyNonAmbient
  rw [hcond]
  dsimp only
  rw [if_pos htype, hvals]
  dsimp only
  rw [hlast]
  dsimp only
  rw [hparse]
  rfl

theorem getMetadata_ok_elim {r : Reader} {i : ℤ} {md : Metadata}
    (h : getMetadata r i = .ok md) :
    ¬ ((getNumScans r : ℤ) ≤ i) ∧
    ∃ scan base, pyIndex r.scans i = .ok scan ∧ instrumentMeta r = .ok base ∧
      applyNonAmbient r.ns scan (applyHeader r.ns scan base) = .ok md := by
  unfold getMetadata at h
  split at h
  · exact absurd h throw_ne_ok
  · next hguard =>
    rw [exceptBind_ok] at h
    obtain ⟨scan, hscan, h⟩ := h
    rw [exceptBind_ok] at h
    obtain ⟨base, hbase, h⟩ := h
    exact ⟨hguard, scan, base, hscan, hbase, h⟩

theorem instrumentMeta_ok_some {r : Reader} {xm : XMLElem} {base : Metadata}
    (hxm : r.root.find (r.ns ++ "xrdMeasurement") = some xm)
    (h : instrumentMeta r = .ok base) :
    ∃ mw, applyWavelength r.ns xm (applySample r.ns r.root {}) = .ok mw ∧
      base = applyIncidentBeam r.ns xm mw := by
  unfold instrumentMeta at h
  rw [hxm] at h
  rw [exceptBind_ok] at h
  obtain ⟨mw, hw, h⟩ := h
  simp only [pure, Except.pure, Except.ok.injEq] at h
  exact ⟨mw, hw, h.symm⟩

/-- C7: for every path absent from the file system, construction fails
with the NotFound error (no parse outcome is ever consulted), and for
every present path whose XML parse fails, construction fails with the
FormatError (`ValueError`) carrying the parse diagnostic. -/
theorem open_notfound_before_parse (fs : FileSystem) (p : String) :
    (fs p = none →
      XRDMLReader.init fs p = .error (.fileNotFound ("File not found: " ++ p))) ∧
    (∀ e, fs p = some (.error e) →
      XRDMLReader.init fs p = .error (.valueError ("Invalid XML file: " ++ e))) := by
  constructor
  · intro h
    unfold XRDMLReader.init
    rw [h]
  · intro e h
    unfold XRDMLReader.init
    rw [h]

/-- Witness for C7 at a missing path and at a corrupt-but-present path. -/
theorem open_notfound_before_parse_witness :
    (emptyFS "missing.xrdml" = none ∧
      XRDMLReader.init emptyFS "missing.xrdml" =
        .error (.fileNotFound ("File not found: " ++ "missing.xrdml"))) ∧
    (badFS "bad.xrdml" = some (.error "syntax error: line 1, column 0") ∧
      XRDMLReader.init badFS "bad.xrdml" =
        .error (.valueError ("Invalid XML file: " ++ "syntax error: line 1, column 0"))) :=
  ⟨⟨rfl, (open_notfound_before_parse emptyFS "missing.xrdml").1 rfl⟩,
   ⟨rfl, (open_notfound_before_parse badFS "bad.xrdml").2 _ rfl⟩⟩

/-- C9: the one-shot `read_xrdml` equals the spec composition (open,
extract at the index, optionally apply the series-extraction
normalization), and without normalization it is exactly open-then-read:
same results and same errors, no independent logic. -/
theorem read_xrdml_refines (fs : FileSystem) (p : String) (i : ℤ) (n : Bool) :
    read_xrdml fs p i n = readXrdmlSpec fs p i n ∧
    read_xrdml fs p i false = (XRDMLReader.init fs p >>= fun r => readScan r i) := by
  constructor
  · unfold read_xrdml readXrdmlSpec
    cases hinit : XRDMLReader.init fs p with
    | error e => simp [Bind.bind, Except.bind]
    | ok r =>
      simp only [Bind.bind, Except.bind]
      cases hscan : readScan r i with
      | error e => rfl
      | ok res =>
        cases n with
        | false => rfl
        | true => rfl
  · unfold read_xrdml
    cases hinit : XRDMLReader.init fs p with
    | error e => simp [Bind.bind, Except.bind]
    | ok r =>
      simp only [Bind.bind, Except.bind]
      cases hscan : readScan r i with
      | error e => rfl
      | ok res => rfl

/-- C6: a successfully parsed document's scan count is the sum over all
`xrdMeasurement` elements directly under the root of their `scan`-child
counts, and the eager scan index is exactly those scans flattened in
document order. -/
theorem num_scans_sum (root : XMLElem) (r : Reader)
    (h : parseRoot root = .ok r) :
    r.scans = ((root.findall (r.ns ++ "xrdMeasurement")).map
        (fun m => m.findall (r.ns ++ "scan"))).flatten ∧
    getNumScans r = ((root.findall (r.ns ++ "xrdMeasurement")).map
        (fun m => (m.findall (r.ns ++ "scan")).length)).sum := by
  unfold parseRoot at h
  dsimp only at h
  simp only [pure_eq_ok, throw_eq_error, Bind.bind, Except.bind] at h
  repeat' split at h
  all_goals cases h
  all_goals
    (refine ⟨rfl, ?_⟩
     unfold getNumScans
     simp only [List.length_flatten, List.map_map]
     rfl)

/-- Witness for C6 on the two-measurement three-scan document. -/
theorem num_scans_sum_witness :
    getNumScans (readerOf sampleDoc) =
      ((sampleDoc.findall ((readerOf sampleDoc).ns ++ "xrdMeasurement")).map
        (fun m => (m.findall ((readerOf sampleDoc).ns ++ "scan")).length)).sum ∧
    getNumScans (readerOf sampleDoc) = 3 :=
  ⟨(num_scans_sum sampleDoc (readerOf sampleDoc) (by with_unfolding_all rfl)).2,
   by decide⟩

/-- C5: when the maximum intensity of a successfully read scan is not
strictly positive, or is exactly 1, the normalized `to_array` output
equals the unnormalized one (guarded, idempotent normalization). -/
theorem normalize_guard_idempotent (r : Reader) (i : ℤ)
    (res : List ℚ × List ℚ × Metadata) (mx : ℚ)
    (hres : readScan r i = .ok res)
    (hmax : npMax res.2.1 = .ok mx)
    (hcase : mx ≤ 0 ∨ mx = 1) :
    toArray r i true = toArray r i false := by
  have hnorm : normalizeMax res.2.1 = .ok res.2.1 := by
    unfold normalizeMax
    rw [hmax]
    simp only [Bind.bind, Except.bind]
    rcases hcase with hle | hone
    · rw [if_neg (not_lt.mpr hle)]
      rfl
    · subst hone
      rw [if_pos one_pos]
      simp [pure, Except.pure]
  unfold toArray
  rw [hres]
  simp only [Bind.bind, Except.bind]
  rw [hnorm]
  rfl

/-- Witness for C5 on `sampleDoc`'s second scan, whose intensities
`0 -1 0` have maximum 0. -/
theorem normalize_guard_idempotent_witness :
    toArray (readerOf sampleDoc) 1 true = toArray (readerOf sampleDoc) 1 false :=
  normalize_guard_idempotent (readerOf sampleDoc) 1
    ([5, 11/2, 6], [0, -1, 0], sampleInstrumentMeta) 0
    (by with_unfolding_all rfl) (by with_unfolding_all rfl) (Or.inl le_rfl)

/-- C1: whenever `read_scan` succeeds, the axis and intensity lists have
equal length; the axis is `linspace` between the parsed start and end
positions of the scan's `positions` element, so for length ≥ 1 its head
is the start position, for length ≥ 2 its last element is the end
position (exactly, hence within any floating-point tolerance), and
consecutive axis values differ by the constant step `(b-a)/(n-1)`. -/
theorem readScan_axis_linspace (r : Reader) (i : ℤ) (tt ints : List ℚ)
    (md : Metadata) (h : readScan r i = .ok (tt, ints, md)) :
    tt.length = ints.length ∧
    ∃ scan dp pos se ee a b,
      pyIndex r.scans i = .ok scan ∧
      scan.find (r.ns ++ "dataPoints") = some dp ∧
      dp.find (r.ns ++ "positions") = some pos ∧
      pos.find (r.ns ++ "startPosition") = some se ∧
      pos.find (r.ns ++ "endPosition") = some ee ∧
      pyFloat se.text = .ok a ∧
      pyFloat ee.text = .ok b ∧
      tt = linspace a b ints.length ∧
      (1 ≤ ints.length → tt.head? = some a) ∧
      (2 ≤ ints.length → tt.getLast? = some b) ∧
      (∀ k, k + 1 < ints.length →
        tt.getD (k + 1) 0 - tt.getD k 0 = (b - a) / ((ints.length : ℚ) - 1)) := by
  unfold readScan at h
  split at h
  · exact absurd h throw_ne_ok
  · rw [exceptBind_ok] at h
    obtain ⟨scan, hscan, h⟩ := h
    dsimp only at h
    cases hfind : scan.find (r.ns ++ "dataPoints") with
    | none =>
      rw [hfind] at h
      simp only [throw_eq_error, Bind.bind, Except.bind] at h
      exact absurd h (by simp)
    | some d =>
      rw [hfind] at h
      simp only [pure_eq_ok, Bind.bind, Except.bind] at h
      cases hfindp : d.find (r.ns ++ "positions") with
      | none =>
        rw [hfindp] at h
        simp only [throw_eq_error, Bind.bind, Except.bind] at h
        exact absurd h (by simp)
      | some p =>
        rw [hfindp] at h
        simp only [pure_eq_ok, Bind.bind, Except.bind] at h
        cases hfse : p.find (r.ns ++ "startPosition") with
        | none =>
          rw [hfse] at h
          simp only [throw_eq_error, Bind.bind, Except.bind] at h
          exact absurd h (by simp)
        | some se =>
          cases hfee : p.find (r.ns ++ "endPosition") with
          | none =>
            rw [hfse, hfee] at h
            simp only [throw_eq_error, Bind.bind, Except.bind] at h
            exact absurd h (by simp)
          | some ee =>
            rw [hfse, hfee] at h
            simp only [pure_eq_ok, Bind.bind, Except.bind] at h
            cases ha : pyFloat se.text with
            | error e =>
              rw [ha] at h
              simp only [Bind.bind, Except.bind] at h
              exact absurd h (by simp)
            | ok a =>
              rw [ha] at h
              simp only [Bind.bind, Except.bind] at h
              cases hb : pyFloat ee.text with
              | error e =>
                rw [hb] at h
                simp only [Bind.bind, Except.bind] at h
                exact absurd h (by simp)
              | ok b =>
                rw [hb] at h
                simp only [Bind.bind, Except.bind] at h
                cases hlook : intensityLookup r.ns d with
                | none =>
                  rw [hlook] at h
                  simp only [throw_eq_error, Bind.bind, Except.bind] at h
                  exact absurd h (by simp)
                | some l =>
                  rw [hlook] at h
                  simp only [pure_eq_ok, Bind.bind, Except.bind] at h
                  cases hmd : getMetadata r i with
                  | error e =>
                    rw [hmd] at h
                    simp only [Bind.bind, Except.bind] at h
                    exact absurd h (by simp)
                  | ok md2 =>
                    rw [hmd] at h
                    simp only [pure_eq_ok, Bind.bind, Except.bind] at h
                    cases h
                    refine ⟨by rw [linspace_length], scan, d, p, se, ee, a, b,
                      hscan, hfind, hfindp, hfse, hfee, ha, hb, rfl, ?_, ?_, ?_⟩
                    · intro hn; exact linspace_head a b ints.length hn
                    · intro hn; exact linspace_getLast a b ints.length hn
                    · intro k hk; exact linspace_spacing a b ints.length k hk

/-- Witness for C1: the spec's concrete scenario, start 10.0, end 20.0,
five samples. -/
theorem readScan_axis_linspace_witness :
    readScan (readerOf sampleDoc) 0 = .ok (axis0, ints0, sampleMeta0) ∧
    (axis0.length = ints0.length ∧
     ∃ scan dp pos se ee a b,
       pyIndex (readerOf sampleDoc).scans 0 = .ok scan ∧
       scan.find ((readerOf sampleDoc).ns ++ "dataPoints") = some dp ∧
       dp.find ((readerOf sampleDoc).ns ++ "positions") = some pos ∧
       pos.find ((readerOf sampleDoc).ns ++ "startPosition") = some se ∧
       pos.find ((readerOf sampleDoc).ns ++ "endPosition") = some ee ∧
       pyFloat se.text = .ok a ∧
       pyFloat ee.text = .ok b ∧
       axis0 = linspace a b ints0.length ∧
       (1 ≤ ints0.length → axis0.head? = some a) ∧
       (2 ≤ ints0.length → axis0.getLast? = some b) ∧
       (∀ k, k + 1 < ints0.length →
         axis0.getD (k + 1) 0 - axis0.getD k 0 =
           (b - a) / ((ints0.length : ℚ) - 1))) :=
  have h : readScan (readerOf sampleDoc) 0 = .ok (axis0, ints0, sampleMeta0) := by
    with_unfolding_all rfl
  ⟨h, readScan_axis_linspace (readerOf sampleDoc) 0 axis0 ints0 sampleMeta0 h⟩

theorem pyIndex_neg_out {α : Type} (l : List α) (i : ℤ)
    (h : i < -(l.length : ℤ)) :
    pyIndex l i = .error (.indexError "list index out of range") := by
  unfold pyIndex
  dsimp only
  rw [dif_neg]
  rintro ⟨hc1, -⟩
  rw [if_pos (show i < 0 by omega)] at hc1
  omega

theorem pyIndex_neg_in {α : Type} (l : List α) (i : ℤ)
    (h1 : -(l.length : ℤ) ≤ i) (h2 : i < 0) :
    pyIndex l i = pyIndex l (i + l.length) := by
  have hj : (if i < 0 then i + (l.length : ℤ) else i) =
      (if i + (l.length : ℤ) < 0 then i + (l.length : ℤ) + (l.length : ℤ)
       else i + (l.length : ℤ)) := by
    rw [if_pos h2, if_neg (by omega : ¬ i + (l.length : ℤ) < 0)]
  unfold pyIndex
  dsimp only
  exact congrArg
    (fun j : ℤ =>
      if h : 0 ≤ j ∧ j.toNat < l.length then
        Except.ok (l.get ⟨j.toNat, h.2⟩)
      else Except.error (PyErr.indexError "list index out of range")) hj

theorem getMetadata_neg_in (r : Reader) (i : ℤ)
    (h1 : -(getNumScans r : ℤ) ≤ i) (h2 : i < 0) :
    getMetadata r i = getMetadata r (i + getNumScans r) := by
  unfold getMetadata
  rw [if_neg (by omega), if_neg (by omega)]
  rw [pyIndex_neg_in r.scans i h1 h2]
  rfl

/-- C3 counterexample: a negative index is not rejected; index `-1`
reads the last scan and returns its data, so negative indices are not
handled like out-of-range ones. -/
theorem negative_index_returns_data :
    readScan (readerOf sampleDoc) (-1) = readScan (readerOf sampleDoc) 2 ∧
    readScan (readerOf sampleDoc) 2 =
      .ok ([30, 31], [1/2, 1], sampleInstrumentMeta) := by
  constructor
  · with_unfolding_all rfl
  · with_unfolding_all rfl

/-- C3 amended: indices at or above the scan count fail on both
`read_scan` and `get_metadata` with the IndexError citing the valid
bound; negative indices below `-count` fail with Python's generic list
IndexError; and negative indices in `[-count, -1]` are not rejected but
address the scan counted from the end (Python negative indexing),
behaving exactly like the corresponding non-negative index. -/
theorem scan_index_bounds_amended (r : Reader) (i : ℤ) :
    ((getNumScans r : ℤ) ≤ i →
      readScan r i = .error (.indexError (scanIndexMsg i (getNumScans r))) ∧
      getMetadata r i = .error (.indexError (scanIndexMsg i (getNumScans r)))) ∧
    (i < -(getNumScans r : ℤ) →
      readScan r i = .error (.indexError "list index out of range") ∧
      getMetadata r i = .error (.indexError "list index out of range")) ∧
    (-(getNumScans r : ℤ) ≤ i → i < 0 →
      readScan r i = readScan r (i + getNumScans r) ∧
      getMetadata r i = getMetadata r (i + getNumScans r)) := by
  refine ⟨?_, ?_, ?_⟩
  · intro h
    constructor
    · unfold readScan
      rw [if_pos h]
      rfl
    · unfold getMetadata
      rw [if_pos h]
      rfl
  · intro h
    have hpy := pyIndex_neg_out r.scans i (by exact_mod_cast h)
    constructor
    · unfold readScan
      rw [if_neg (by omega)]
      dsimp only
      rw [hpy]
      rfl
    · unfold getMetadata
      rw [if_neg (by omega)]
      rw [hpy]
      rfl
  · intro h1 h2
    refine ⟨?_, getMetadata_neg_in r i h1 h2⟩
    unfold readScan
    rw [if_neg (by omega), if_neg (by omega)]
    rw [pyIndex_neg_in r.scans i h1 h2]
    simp only [getMetadata_neg_in r i h1 h2]
    rfl

/-- Witness for the amended C3 at the three concrete index classes. -/
theorem scan_index_bounds_amended_witness :
    readScan (readerOf sampleDoc) (-1) =
      readScan (readerOf sampleDoc) (-1 + (getNumScans (readerOf sampleDoc) : ℤ)) ∧
    readScan (readerOf sampleDoc) 5 =
      .error (.indexError (scanIndexMsg 5 (getNumScans (readerOf sampleDoc)))) ∧
    readScan (readerOf sampleDoc) (-7) =
      .error (.indexError "list index out of range") :=
  ⟨((scan_index_bounds_amended (readerOf sampleDoc) (-1)).2.2
      (by with_unfolding_all decide) (by decide)).1,
   ((scan_index_bounds_amended (readerOf sampleDoc) 5).1
      (by with_unfolding_all decide)).1,
   ((scan_index_bounds_amended (readerOf sampleDoc) (-7)).2.1
      (by with_unfolding_all decide)).1⟩

/-- C2 counterexample: a document whose only measurement block lacks
`incidentBeamPath` extracts metadata successfully, and the resulting
mapping omits `gonio_radius` entirely instead of containing 300.0. -/
theorem gonio_absent_not_defaulted :
    c2Doc.find "xrdMeasurement" = some c2MeasElem ∧
    c2MeasElem.find "incidentBeamPath" = none ∧
    getMetadata (readerOf c2Doc) 0 = .ok {} ∧
    ({} : Metadata).gonio_radius ≠ some 300 := by
  refine ⟨by with_unfolding_all rfl, by with_unfolding_all rfl,
    by with_unfolding_all rfl, by decide⟩

/-- C2 amended: the 300.0 fallback fires exactly when the traversal of
the `incidentBeamPath` block raises (the only raising statement is the
`float` conversion of the radius text); when the `incidentBeamPath`
element or its `radius` (or the radius text) is merely absent, the
traversal succeeds silently and `gonio_radius` is omitted from the
mapping. -/
theorem gonio_radius_fallback_amended (r : Reader) (i : ℤ) (md : Metadata)
    (xm : XMLElem)
    (hok : getMetadata r i = .ok md)
    (hxm : r.root.find (r.ns ++ "xrdMeasurement") = some xm) :
    (∀ ib, xm.find (r.ns ++ "incidentBeamPath") = some ib →
       radiusParse r.ns ib = .error () → md.gonio_radius = some 300) ∧
    (xm.find (r.ns ++ "incidentBeamPath") = none → md.gonio_radius = none) ∧
    (∀ ib, xm.find (r.ns ++ "incidentBeamPath") = some ib →
       radiusParse r.ns ib = .ok none → md.gonio_radius = none) := by
  obtain ⟨hguard, scan, base, hscan, hbase, hna⟩ := getMetadata_ok_elim hok
  obtain ⟨mw, hw, hbeq⟩ := instrumentMeta_ok_some hxm hbase
  have hheader := (applyHeader_fields r.ns scan base).2.2.2.2.2.1
  have hna2 := (applyNonAmbient_fields hna).2.2.2.2.2.1
  have hmd_base : md.gonio_radius = base.gonio_radius := by
    rw [hna2, hheader]
  refine ⟨?_, ?_, ?_⟩
  · intro ib hib hrad
    rw [hmd_base, hbeq, applyIncidentBeam_error_300 hib hrad]
  · intro hib
    rw [hmd_base, hbeq, applyIncidentBeam_absent hib,
      applyWavelength_gonio hw, applySample_gonio]
  · intro ib hib hrad
    rw [hmd_base, hbeq, applyIncidentBeam_noradius hib hrad,
      applyWavelength_gonio hw, applySample_gonio]

/-- Witness for the amended C2: unparseable radius text `"n/a"` makes
the traversal raise, and the metadata carries the 300.0 default. -/
theorem gonio_radius_fallback_amended_witness :
    getMetadata (readerOf c2BadRadiusDoc) 0 = .ok c2BadMeta ∧
    radiusParse (readerOf c2BadRadiusDoc).ns c2BadIb = .error () ∧
    c2BadMeta.gonio_radius = some 300 :=
  have hok : getMetadata (readerOf c2BadRadiusDoc) 0 = .ok c2BadMeta := by
    with_unfolding_all rfl
  have hrad : radiusParse (readerOf c2BadRadiusDoc).ns c2BadIb = .error () := by
    with_unfolding_all rfl
  ⟨hok, hrad,
    (gonio_radius_fallback_amended (readerOf c2BadRadiusDoc) 0 c2BadMeta c2BadXm
      hok (by with_unfolding_all rfl)).1 c2BadIb (by with_unfolding_all rfl) hrad⟩

/-- C8: when a scan carries a `nonAmbientPoints` block of type
`"Temperature"` whose value text has at least one whitespace-separated
token and the last token parses as a float, successful metadata
extraction reports that last value as the temperature. -/
theorem temperature_last_value (r : Reader) (i : ℤ) (md : Metadata)
    (scan cond : XMLElem) (t lastTok : String) (temp : ℚ)
    (hok : getMetadata r i = .ok md)
    (hscan : pyIndex r.scans i = .ok scan)
    (hcond : scan.find (r.ns ++ "nonAmbientPoints") = some cond)
    (htype : cond.attr "type" = some "Temperature")
    (hvals : (cond.find (r.ns ++ "nonAmbientValues")).bind textOf = some t)
    (hlast : (splitWhitespace t).getLast? = some lastTok)
    (hparse : parseFloat lastTok = some temp) :
    md.temperature = some temp := by
  obtain ⟨hguard, scan2, base, hscan2, hbase, hna⟩ := getMetadata_ok_elim hok
  rw [hscan] at hscan2
  obtain rfl := Except.ok.inj hscan2
  rw [applyNonAmbient_temperature hcond htype hvals hlast hparse] at hna
  have hm := Except.ok.inj hna
  subst hm
  rfl

/-- Witness for C8: the spec's concrete values `299.1 300.4 301.0`
yield temperature 301.0. -/
theorem temperature_last_value_witness :
    getMetadata (readerOf sampleDoc) 0 = .ok sampleMeta0 ∧
    splitWhitespace "299.1 300.4 301.0" = ["299.1", "300.4", "301.0"] ∧
    sampleMeta0.temperature = some 301 :=
  have hok : getMetadata (readerOf sampleDoc) 0 = .ok sampleMeta0 := by
    with_unfolding_all rfl
  ⟨hok, by with_unfolding_all rfl,
   temperature_last_value (readerOf sampleDoc) 0 sampleMeta0 sampleScanA
     sampleCondA "299.1 300.4 301.0" "301.0" 301 hok
     (by with_unfolding_all rfl) (by with_unfolding_all rfl)
     (by with_unfolding_all rfl) (by with_unfolding_all rfl)
     (by with_unfolding_all rfl) (by with_unfolding_all rfl)⟩

theorem setFloatField_isOk (e : Option XMLElem) (f : Metadata → ℚ → Metadata)
    (m : Metadata) (h : tagOk e = true) :
    ∃ m2, setFloatField e f m = .ok m2 := by
  unfold tagOk at h
  unfold setFloatField
  cases he : e.bind textOf with
  | none => exact ⟨m, rfl⟩
  | some t =>
    rw [he] at h
    dsimp only at h ⊢
    cases hp : parseFloat t with
    | none => rw [hp] at h; simp at h
    | some v => exact ⟨f m v, rfl⟩

theorem applyWavelength_isOk (ns : String) (xm : XMLElem) (m : Metadata)
    (h : usedWavelengthOk ns xm = true) :
    ∃ m2, applyWavelength ns xm m = .ok m2 := by
  unfold usedWavelengthOk at h
  unfold applyWavelength
  cases hw : xm.find (ns ++ "usedWavelength") with
  | none => exact ⟨m, rfl⟩
  | some w =>
    rw [hw] at h
    dsimp only at h ⊢
    simp only [Bool.and_eq_true] at h
    obtain ⟨⟨⟨h1, h2⟩, h3⟩, h4⟩ := h
    obtain ⟨m1, e1⟩ := setFloatField_isOk _
      (fun m v => { m with wavelength_ka1 := some v }) m h1
    obtain ⟨m2, e2⟩ := setFloatField_isOk _
      (fun m v => { m with wavelength_ka2 := some v }) m1 h2
    obtain ⟨m3, e3⟩ := setFloatField_isOk _
      (fun m v => { m with wavelength_kb := some v }) m2 h3
    obtain ⟨m4, e4⟩ := setFloatField_isOk _
      (fun m v => { m with ka2_ka1_ratio := some v }) m3 h4
    refine ⟨m4, ?_⟩
    rw [e1]
    simp only [Bind.bind, Except.bind]
    rw [e2]
    simp only [Bind.bind, Except.bind]
    rw [e3]
    simp only [Bind.bind, Except.bind]
    exact e4

theorem instrumentMeta_isOk (r : Reader)
    (h : wavelengthParses r.ns r.root = true) :
    ∃ base, instrumentMeta r = .ok base := by
  unfold wavelengthParses at h
  unfold instrumentMeta
  dsimp only
  cases hxm : r.root.find (r.ns ++ "xrdMeasurement") with
  | none => exact ⟨applySample r.ns r.root {}, rfl⟩
  | some xm =>
    rw [hxm] at h
    dsimp only at h ⊢
    obtain ⟨mw, hw⟩ := applyWavelength_isOk r.ns xm (applySample r.ns r.root {}) h
    refine ⟨applyIncidentBeam r.ns xm mw, ?_⟩
    rw [hw]
    rfl

theorem applyNonAmbient_isOk (ns : String) (scan : XMLElem) (m : Metadata)
    (h : tempParses ns scan = true) :
    ∃ m2, applyNonAmbient ns scan m = .ok m2 := by
  unfold tempParses at h
  unfold applyNonAmbient
  cases hc : scan.find (ns ++ "nonAmbientPoints") with
  | none => exact ⟨m, rfl⟩
  | some cond =>
    rw [hc] at h
    dsimp only at h ⊢
    by_cases ht : cond.attr "type" = some "Temperature"
    · rw [if_pos ht] at h
      simp only [if_pos ht]
      cases hv : (cond.find (ns ++ "nonAmbientValues")).bind textOf with
      | none => exact ⟨m, rfl⟩
      | some t =>
        rw [hv] at h
        dsimp only at h ⊢
        cases hl : (splitWhitespace t).getLast? with
        | none => exact ⟨m, rfl⟩
        | some tok =>
          rw [hl] at h
          dsimp only at h ⊢
          cases hp : parseFloat tok with
          | none => rw [hp] at h; simp at h
          | some temp => exact ⟨{ m with temperature := some temp }, rfl⟩
    · simp only [if_neg ht]
      exact ⟨m, rfl⟩

theorem getMetadata_isOk (r : Reader) (i : ℤ) (scan : XMLElem)
    (hguard : ¬ (getNumScans r : ℤ) ≤ i)
    (hscan : pyIndex r.scans i = .ok scan)
    (hwl : wavelengthParses r.ns r.root = true)
    (htp : tempParses r.ns scan = true) :
    ∃ md, getMetadata r i = .ok md := by
  obtain ⟨base, hbase⟩ := instrumentMeta_isOk r hwl
  obtain ⟨md, hmd⟩ := applyNonAmbient_isOk r.ns scan (applyHeader r.ns scan base) htp
  refine ⟨md, ?_⟩
  unfold getMetadata
  rw [if_neg hguard]
  rw [hscan]
  simp only [Bind.bind, Except.bind]
  rw [hbase]
  simp only [Bind.bind, Except.bind]
  exact hmd

/-- C4: a scan whose `dataPoints` (with well-formed positions) carries
neither an `intensities` nor a `counts` tag with text makes `read_scan`
fail with the FormatError naming the missing intensity data — the
failure happens before metadata is consulted — while `get_metadata` on
the same index succeeds (given that the numeric texts it does read
parse, captured by `wavelengthParses`/`tempParses`). -/
theorem missing_intensity_formaterror (r : Reader) (i : ℤ)
    (scan dp p se ee : XMLElem) (a b : ℚ)
    (hguard : ¬ (getNumScans r : ℤ) ≤ i)
    (hscan : pyIndex r.scans i = .ok scan)
    (hdp : scan.find (r.ns ++ "dataPoints") = some dp)
    (hp : dp.find (r.ns ++ "positions") = some p)
    (hse : p.find (r.ns ++ "startPosition") = some se)
    (hee : p.find (r.ns ++ "endPosition") = some ee)
    (ha : pyFloat se.text = .ok a)
    (hb : pyFloat ee.text = .ok b)
    (hmiss : intensityLookup r.ns dp = none)
    (hwl : wavelengthParses r.ns r.root = true)
    (htp : tempParses r.ns scan = true) :
    readScan r i = .error (.valueError "Intensity data could not be located") ∧
    ∃ md, getMetadata r i = .ok md := by
  refine ⟨?_, getMetadata_isOk r i scan hguard hscan hwl htp⟩
  unfold readScan
  rw [if_neg hguard]
  rw [hscan]
  simp only [Bind.bind, Except.bind]
  rw [hdp]
  simp only [pure_eq_ok, Bind.bind, Except.bind]
  rw [hp]
  simp only [pure_eq_ok, Bind.bind, Except.bind]
  rw [hse, hee]
  simp only [pure_eq_ok, Bind.bind, Except.bind]
  rw [ha]
  simp only [Bind.bind, Except.bind]
  rw [hb]
  simp only [Bind.bind, Except.bind]
  rw [hmiss]

/-- Witness for C4 on a document with positions but no intensity tags. -/
theorem missing_intensity_formaterror_witness :
    readScan (readerOf c4Doc) 0 =
      .error (.valueError "Intensity data could not be located") ∧
    getMetadata (readerOf c4Doc) 0 = .ok {} :=
  ⟨(missing_intensity_formaterror (readerOf c4Doc) 0 c4Scan c4DP c4Pos c4SE c4EE
      10 20
      (by with_unfolding_all decide) (by with_unfolding_all rfl)
      (by with_unfolding_all rfl) (by with_unfolding_all rfl)
      (by with_unfolding_all rfl) (by with_unfolding_all rfl)
      (by with_unfolding_all rfl) (by with_unfolding_all rfl)
      (by with_unfolding_all rfl) (by with_unfolding_all rfl)
      (by with_unfolding_all rfl)).1,
   by with_unfolding_all rfl⟩

/-- C10: for any two successful metadata extractions of the same
document, all instrument fields (sample id, the four wavelength values,
tube type, voltage, current, goniometer radius) coincide regardless of
the scan index — they are read from the root's `sample` element and the
first `xrdMeasurement` only — while the result decomposes as that
root-derived record extended by the header and non-ambient blocks of
the indexed scan element alone. -/
theorem metadata_instrument_fields_global (r : Reader) (i j : ℤ)
    (mi mj : Metadata)
    (hi : getMetadata r i = .ok mi) (hj : getMetadata r j = .ok mj) :
    (mi.sample_id = mj.sample_id ∧
     mi.wavelength_ka1 = mj.wavelength_ka1 ∧
     mi.wavelength_ka2 = mj.wavelength_ka2 ∧
     mi.wavelength_kb = mj.wavelength_kb ∧
     mi.ka2_ka1_ratio = mj.ka2_ka1_ratio ∧
     mi.gonio_radius = mj.gonio_radius ∧
     mi.tube_type = mj.tube_type ∧
     mi.voltage = mj.voltage ∧
     mi.current = mj.current) ∧
    ∃ scan base, pyIndex r.scans i = .ok scan ∧ instrumentMeta r = .ok base ∧
      applyNonAmbient r.ns scan (applyHeader r.ns scan base) = .ok mi := by
  obtain ⟨-, scani, basei, hsi, hbi, hni⟩ := getMetadata_ok_elim hi
  obtain ⟨-, scanj, basej, hsj, hbj, hnj⟩ := getMetadata_ok_elim hj
  rw [hbi] at hbj
  obtain rfl := Except.ok.inj hbj
  have Hi := applyNonAmbient_fields hni
  have Hj := applyNonAmbient_fields hnj
  have Ki := applyHeader_fields r.ns scani basei
  have Kj := applyHeader_fields r.ns scanj basei
  refine ⟨⟨?_, ?_, ?_, ?_, ?_, ?_, ?_, ?_, ?_⟩, scani, basei, hsi, hbi, hni⟩
  · rw [Hi.1, Ki.1, ← Kj.1, ← Hj.1]
  · rw [Hi.2.1, Ki.2.1, ← Kj.2.1, ← Hj.2.1]
  · rw [Hi.2.2.1, Ki.2.2.1, ← Kj.2.2.1, ← Hj.2.2.1]
  · rw [Hi.2.2.2.1, Ki.2.2.2.1, ← Kj.2.2.2.1, ← Hj.2.2.2.1]
  · rw [Hi.2.2.2.2.1, Ki.2.2.2.2.1, ← Kj.2.2.2.2.1, ← Hj.2.2.2.2.1]
  · rw [Hi.2.2.2.2.2.1, Ki.2.2.2.2.2.1, ← Kj.2.2.2.2.2.1, ← Hj.2.2.2.2.2.1]
  · rw [Hi.2.2.2.2.2.2.1, Ki.2.2.2.2.2.2.1, ← Kj.2.2.2.2.2.2.1,
      ← Hj.2.2.2.2.2.2.1]
  · rw [Hi.2.2.2.2.2.2.2.1, Ki.2.2.2.2.2.2.2.1, ← Kj.2.2.2.2.2.2.2.1,
      ← Hj.2.2.2.2.2.2.2.1]
  · rw [Hi.2.2.2.2.2.2.2.2.1, Ki.2.2.2.2.2.2.2.2.1, ← Kj.2.2.2.2.2.2.2.2.1,
      ← Hj.2.2.2.2.2.2.2.2.1]

/-- Witness for C10: scan 0 (first measurement block) and scan 2
(second measurement block) of the sample document share all instrument
fields, including the wavelength and radius of the first block. -/
theorem metadata_instrument_fields_global_witness :
    getMetadata (readerOf sampleDoc) 0 = .ok sampleMeta0 ∧
    getMetadata (readerOf sampleDoc) 2 = .ok sampleInstrumentMeta ∧
    sampleMeta0.gonio_radius = sampleInstrumentMeta.gonio_radius ∧
    sampleMeta0.wavelength_ka1 = sampleInstrumentMeta.wavelength_ka1 :=
  have h0 : getMetadata (readerOf sampleDoc) 0 = .ok sampleMeta0 := by
    with_unfolding_all rfl
  have h2 : getMetadata (readerOf sampleDoc) 2 = .ok sampleInstrumentMeta := by
    with_unfolding_all rfl
  have hmain :=
    metadata_instrument_fields_global (readerOf sampleDoc) 0 2
      sampleMeta0 sampleInstrumentMeta h0 h2
  ⟨h0, h2, hmain.1.2.2.2.2.2.1, hmain.1.2.1⟩
